import Mathlib

/-!
Shallow embedding of the walk-forward NBA backtesting core:
`advanced_stats.py`, `advanced_features.py`, `predict_vegas_with_injuries.py`,
`backtest_full_model.py` and `backtest_2023_24_season.py`.

Numeric conventions: Python floats that only pass through field arithmetic and
comparisons are modelled as `ℚ`; values produced by transcendental functions
(`math.sin`, `math.cos`, `math.asin`, `math.atan2`) are modelled as `ℝ`.
Python `datetime` values are modelled by the `Date` structure below, compared
chronologically; `datetime.strptime` for the formats used by the code is
modelled by executable parsers over the character list of the input string
(C locale month names, case-insensitive, with a run of spaces for the
whitespace of the format, as CPython's `_strptime` compiles whitespace to
one-or-more).  A Python function that can raise is modelled with `Option`.
-/

namespace NBA

/-! ### Calendar dates (model of `datetime.datetime` at midnight) -/

/-- A calendar date, as validated by the `datetime` constructor. -/
structure Date where
  year : Nat
  month : Nat
  day : Nat
deriving DecidableEq, Repr

/-- Chronological (lexicographic) strict order on dates, as Python compares
`datetime` values. -/
def Date.blt (a b : Date) : Bool :=
  a.year < b.year ||
    (a.year == b.year &&
      (a.month < b.month || (a.month == b.month && a.day < b.day)))

/-- Chronological (lexicographic) non-strict order on dates. -/
def Date.ble (a b : Date) : Bool :=
  a.year < b.year ||
    (a.year == b.year &&
      (a.month < b.month || (a.month == b.month && a.day <= b.day)))

/-- `datetime.min` (year 1, January 1), the fallback sort key used by
`backtest_full_model.py` for unparseable dates. -/
def datetimeMin : Date := ⟨1, 1, 1⟩

/-- Gregorian leap-year test, as `calendar.isleap` / `datetime`. -/
def isLeapYear (y : Nat) : Bool :=
  y % 4 == 0 && (y % 100 != 0 || y % 400 == 0)

/-- Number of days of month `m` of year `y`. -/
def daysInMonth (y m : Nat) : Nat :=
  if m == 2 then (if isLeapYear y then 29 else 28)
  else if m == 4 || m == 6 || m == 9 || m == 11 then 30
  else 31

/-- Days before January 1 of year `y` counted from the proleptic-Gregorian
epoch 0001-01-01, as in CPython's `datetime._days_before_year`. -/
def daysBeforeYear (y : Nat) : Nat :=
  let py := y - 1
  py * 365 + py / 4 - py / 100 + py / 400

/-- Days of year `y` that precede the first day of month `m`. -/
def daysBeforeMonth (y m : Nat) : Nat :=
  ((List.range (m - 1)).map (fun i => daysInMonth y (i + 1))).sum

/-- `datetime.toordinal`: 0001-01-01 is day 1.  Differences of ordinals model
`(a - b).days` for midnight datetimes. -/
def Date.toOrdinal (dt : Date) : Nat :=
  daysBeforeYear dt.year + daysBeforeMonth dt.year dt.month + dt.day

/-- The validation performed by the `datetime(year, month, day)` constructor:
out-of-range components raise `ValueError`, modelled as `none`. -/
def mkDate (y m d : Nat) : Option Date :=
  if 1 ≤ y && y ≤ 9999 && 1 ≤ m && m ≤ 12 && 1 ≤ d && d ≤ daysInMonth y m
  then some ⟨y, m, d⟩ else none

/-! ### Date-string parsing (model of `datetime.strptime` for the three
formats the code uses) -/

/-- ASCII uppercase of one character (strptime matches month names
case-insensitively). -/
def upChar (c : Char) : Char :=
  if 'a' ≤ c && c ≤ 'z' then Char.ofNat (c.toNat - 32) else c

/-- ASCII digit test. -/
def isDigitChar (c : Char) : Bool := '0' ≤ c && c ≤ '9'

/-- ASCII uppercase-letter test (inputs are uppercased before matching). -/
def isUpperAlpha (c : Char) : Bool := 'A' ≤ c && c ≤ 'Z'

/-- Numeric value of a digit string. -/
def readNat (cs : List Char) : Nat :=
  cs.foldl (fun acc c => acc * 10 + (c.toNat - 48)) 0

/-- English month abbreviations of the C locale, the `%b` alternatives. -/
def monthAbbrevs : List String :=
  ["JAN", "FEB", "MAR", "APR", "MAY", "JUN",
   "JUL", "AUG", "SEP", "OCT", "NOV", "DEC"]

/-- Full English month names of the C locale, the `%B` alternatives. -/
def monthFullNames : List String :=
  ["JANUARY", "FEBRUARY", "MARCH", "APRIL", "MAY", "JUNE",
   "JULY", "AUGUST", "SEPTEMBER", "OCTOBER", "NOVEMBER", "DECEMBER"]

/-- 1-based month number of an (uppercased) month name. -/
def monthIndex (names : List String) (s : String) : Option Nat :=
  match names.findIdx? (fun n => n == s) with
  | some i => some (i + 1)
  | none => none

/-- `strptime(s, "Month DD, YYYY")` for a given month-name table: month name,
one-or-more spaces, a 1-2 digit day in 1..31 (the `%d` pattern), a comma,
one-or-more spaces, a 4-digit year (the `%Y` pattern), end of input; then the
`datetime` constructor validation. -/
def parseMonthDayYear (names : List String) (s : String) : Option Date :=
  let cs := s.data.map upChar
  let mon := cs.span isUpperAlpha
  match monthIndex names (String.mk mon.1) with
  | none => none
  | some m =>
    let sp1 := mon.2.span (fun c => c == ' ')
    if sp1.1.length == 0 then none else
    let dayp := sp1.2.span isDigitChar
    if !(dayp.1.length == 1 || dayp.1.length == 2) then none else
    let d := readNat dayp.1
    if !(1 ≤ d && d ≤ 31) then none else
    match dayp.2 with
    | ',' :: r4 =>
      let sp2 := r4.span (fun c => c == ' ')
      if sp2.1.length == 0 then none else
      let yrp := sp2.2.span isDigitChar
      if !(yrp.1.length == 4 && yrp.2 == []) then none else
      mkDate (readNat yrp.1) m d
    | _ => none

/-- `strptime(s, "%Y-%m-%d")`: 4-digit year, dash, 1-2 digit month in 1..12,
dash, 1-2 digit day in 1..31, end of input; then constructor validation. -/
def parseIsoDate (s : String) : Option Date :=
  let cs := s.data
  let yrp := cs.span isDigitChar
  if !(yrp.1.length == 4) then none else
  match yrp.2 with
  | '-' :: r1 =>
    let monp := r1.span isDigitChar
    if !(monp.1.length == 1 || monp.1.length == 2) then none else
    let m := readNat monp.1
    if !(1 ≤ m && m ≤ 12) then none else
    match monp.2 with
    | '-' :: r2 =>
      let dayp := r2.span isDigitChar
      if !((dayp.1.length == 1 || dayp.1.length == 2) && dayp.2 == []) then none else
      let d := readNat dayp.1
      if !(1 ≤ d && d ≤ 31) then none else
      mkDate (readNat yrp.1) m d
    | _ => none
  | _ => none

/-- `math.radians`: degrees to radians. -/
noncomputable def radians (x : ℝ) : ℝ := x * Real.pi / 180

/-- `math.atan2 y x`: the angle of the point `(x, y)`, in `(-π, π]`. -/
noncomputable def atan2 (y x : ℝ) : ℝ :=
  if 0 < x then Real.arctan (y / x)
  else if x < 0 then
    (if 0 ≤ y then Real.arctan (y / x) + Real.pi
     else Real.arctan (y / x) - Real.pi)
  else
    (if 0 < y then Real.pi / 2 else if y < 0 then -(Real.pi / 2) else 0)

/-! ### `advanced_stats.py` -/

namespace AdvancedStats

/-- One game dictionary as produced by `fetch_team_game_stats`, restricted to
the keys the backtest consumes (`pts`, `possessions`, `off_rating`, `won`,
`game_date`); the remaining keys (`team`, `opponent`, `is_home`, box-score
components, `matchup`) are never read downstream. -/
structure Game where
  pts : ℚ
  possessions : ℚ
  off_rating : ℚ
  won : Bool
  game_date : String
deriving DecidableEq, Repr

/-- `calculate_possessions`: `FGA + 0.44*FTA - OREB + TOV`. -/
def calculate_possessions (fga fta oreb tov : ℚ) : ℚ :=
  fga + (0.44 * fta) - oreb + tov

/-- `calculate_offensive_rating`: points per 100 possessions, `0` when
`possessions == 0`. -/
def calculate_offensive_rating (pts possessions : ℚ) : ℚ :=
  if possessions == 0 then 0 else (pts / possessions) * 100

/-- The dictionary returned by `calculate_team_average_stats`: the empty-input
branch carries no `num_games` key, modelled by `none`. -/
structure TeamStats where
  avg_pts : ℚ
  avg_off_rating : ℚ
  avg_possessions : ℚ
  win_pct : ℚ
  num_games : Option Nat
deriving DecidableEq, Repr

/-- `calculate_team_average_stats`: averages over `games[:last_n_games]`, with
neutral defaults (`avg_off_rating 100`, `win_pct 0.5`, ...) for an empty
input list. -/
def calculate_team_average_stats (games : List Game) (last_n_games : Nat) :
    TeamStats :=
  if games.isEmpty then
    { avg_pts := 0, avg_off_rating := 100, avg_possessions := 100,
      win_pct := 0.5, num_games := none }
  else
    let recent_games := games.take last_n_games
    let n := recent_games.length
    { avg_pts := if n > 0 then (recent_games.map (fun g => g.pts)).sum / n else 0
      avg_off_rating :=
        if n > 0 then (recent_games.map (fun g => g.off_rating)).sum / n else 100
      avg_possessions :=
        if n > 0 then (recent_games.map (fun g => g.possessions)).sum / n else 100
      win_pct :=
        if n > 0 then ((recent_games.filter (fun g => g.won)).length : ℚ) / n
        else 0.5
      num_games := some n }

end AdvancedStats

/-! ### `predict_vegas_with_injuries.py` -/

namespace PredictVegas

/-- The `R = 3958.8` Earth-radius constant of `haversine_distance`. -/
noncomputable def R_miles : ℝ := 3958.8

/-- `haversine_distance(lat1, lon1, lat2, lon2)`.  Total model: `Real.arcsin`
clamps where `math.asin` would raise outside `[-1, 1]`, which is unreachable
for latitudes in `[-90, 90]`. -/
noncomputable def haversine_distance (lat1 lon1 lat2 lon2 : ℝ) : ℝ :=
  let lat1_rad := radians lat1
  let lat2_rad := radians lat2
  let delta_lat := radians (lat2 - lat1)
  let delta_lon := radians (lon2 - lon1)
  let a := Real.sin (delta_lat / 2) ^ 2 +
    Real.cos lat1_rad * Real.cos lat2_rad * Real.sin (delta_lon / 2) ^ 2
  let c := 2 * Real.arcsin (Real.sqrt a)
  R_miles * c

/-- `TEAM_LOCATIONS` of `predict_vegas_with_injuries.py` (coordinates kept as
exact decimals). -/
def TEAM_LOCATIONS : List (String × ℚ × ℚ) :=
  [("LAL", 34.0430, -118.2673), ("LAC", 34.0430, -118.2673),
   ("BOS", 42.3662, -71.0621), ("GS", 37.7680, -122.3877),
   ("MIA", 25.7814, -80.1870), ("PHX", 33.4457, -112.0712),
   ("PHI", 39.9012, -75.1720), ("DAL", 32.7905, -96.8103),
   ("MIL", 43.0436, -87.9170), ("DEN", 39.7487, -105.0077),
   ("NY", 40.7505, -73.9934), ("BKN", 40.6853, -73.9742),
   ("TOR", 43.6435, -79.3791), ("CHI", 41.8807, -87.6742),
   ("CLE", 41.4965, -81.6882), ("ATL", 33.7573, -84.3963),
   ("CHA", 35.2251, -80.8392), ("ORL", 28.5392, -81.3839),
   ("IND", 39.7640, -86.1555), ("DET", 42.3410, -83.0550),
   ("WSH", 38.8981, -77.0209), ("MEM", 35.1382, -90.0505),
   ("NO", 29.9490, -90.0821), ("SA", 29.4271, -98.4375),
   ("HOU", 29.7508, -95.3621), ("OKC", 35.4634, -97.5151),
   ("MIN", 44.9795, -93.2760), ("POR", 45.5316, -122.6668),
   ("UTAH", 40.7683, -111.9011), ("SAC", 38.5803, -121.4996)]

end PredictVegas

/-! ### `advanced_features.py` -/

namespace AdvancedFeatures

/-- `parse_game_date` of `advanced_features.py`: tries `"%b %d, %Y"`, then
`"%Y-%m-%d"`, then `"%B %d, %Y"` (all case-insensitive); raises `ValueError`
(modelled `none`) when every format fails. -/
def parse_game_date (date_str : String) : Option Date :=
  (parseMonthDayYear monthAbbrevs date_str).orElse (fun _ =>
    (parseIsoDate date_str).orElse (fun _ =>
      parseMonthDayYear monthFullNames date_str))

/-- `calculate_rest_differential(home_last_game, away_last_game, game_date)`:
parses the two last-game dates, returns `-(away_last - home_last).days`, and
`0` when a parse raises; the `game_date` argument is never used. -/
def calculate_rest_differential
    (home_last_game away_last_game game_date : String) : Int :=
  match parse_game_date home_last_game, parse_game_date away_last_game with
  | some home_last, some away_last =>
      -((away_last.toOrdinal : Int) - (home_last.toOrdinal : Int))
  | _, _ => 0

/-- The `R = 3959` Earth-radius constant of `calculate_travel_distance`. -/
noncomputable def R_miles : ℝ := 3959

/-- The coordinate-level body of `calculate_travel_distance` (everything after
the table lookup), with `(lat1, lon1)` the away and `(lat2, lon2)` the home
coordinates. -/
noncomputable def calculate_travel_distance_formula
    (lat1 lon1 lat2 lon2 : ℝ) : ℝ :=
  let lat1_rad := radians lat1
  let lat2_rad := radians lat2
  let dlat := radians (lat2 - lat1)
  let dlon := radians (lon2 - lon1)
  let a := Real.sin (dlat / 2) ^ 2 +
    Real.cos lat1_rad * Real.cos lat2_rad * Real.sin (dlon / 2) ^ 2
  let c := 2 * atan2 (Real.sqrt a) (Real.sqrt (1 - a))
  R_miles * c

/-- `TEAM_LOCATIONS` of `advanced_features.py`. -/
def TEAM_LOCATIONS : List (String × ℚ × ℚ) :=
  [("ATL", 33.7573, -84.3963), ("BOS", 42.3661, -71.0621),
   ("BKN", 40.6826, -73.9754), ("CHA", 35.2251, -80.8392),
   ("CHI", 41.8807, -87.6742), ("CLE", 41.4965, -81.6882),
   ("DAL", 32.7905, -96.8103), ("DEN", 39.7487, -105.0077),
   ("DET", 42.3410, -83.0550), ("GSW", 37.7680, -122.3878),
   ("HOU", 29.7508, -95.3621), ("IND", 39.7640, -86.1555),
   ("LAC", 34.0430, -118.2673), ("LAL", 34.0430, -118.2673),
   ("MEM", 35.1382, -90.0505), ("MIA", 25.7814, -80.1870),
   ("MIL", 43.0436, -87.9170), ("MIN", 44.9795, -93.2760),
   ("NOP", 29.9490, -90.0821), ("NYK", 40.7505, -73.9934),
   ("OKC", 35.4634, -97.5151), ("ORL", 28.5392, -81.3839),
   ("PHI", 39.9012, -75.1720), ("PHX", 33.4457, -112.0713),
   ("POR", 45.5316, -122.6668), ("SAC", 38.5801, -121.4998),
   ("SAS", 29.4270, -98.4375), ("TOR", 43.6435, -79.3791),
   ("UTA", 40.7683, -111.9011), ("WAS", 38.8981, -77.0209)]

/-- `calculate_travel_distance(away_team_abbr, home_team_abbr)`: `0` when
either abbreviation is missing from the table, the Haversine body
otherwise. -/
noncomputable def calculate_travel_distance
    (away_team_abbr home_team_abbr : String) : ℝ :=
  match TEAM_LOCATIONS.lookup away_team_abbr,
        TEAM_LOCATIONS.lookup home_team_abbr with
  | some aloc, some hloc =>
      calculate_travel_distance_formula
        (aloc.1 : ℝ) (aloc.2 : ℝ) (hloc.1 : ℝ) (hloc.2 : ℝ)
  | _, _ => 0

/-- `calculate_travel_fatigue_factor(distance)`. -/
noncomputable def calculate_travel_fatigue_factor (distance : ℝ) : ℝ :=
  if distance < 500 then -0.5
  else if distance < 1500 then -2.0
  else if distance < 2500 then -5.0
  else -7.0

end AdvancedFeatures

/-! ### `backtest_full_model.py` -/

namespace BacktestFullModel

/-- `parse_game_date` of `backtest_full_model.py`:
`datetime.strptime(date_str.title(), "%b %d, %Y")` with `None` on failure;
`.title()` is semantically inert because `strptime` matches month names
case-insensitively. -/
def parse_game_date (date_str : String) : Option Date :=
  parseMonthDayYear monthAbbrevs date_str

/-- One game dictionary of the list built by `fetch_historical_games`,
restricted to the keys the backtest consumes (the redundant `matchup` string
is never read downstream). -/
structure Matchup where
  home_team : String
  away_team : String
  home_won : Bool
  game_date : String
deriving DecidableEq, Repr

/-- `calculate_travel_distance` of `backtest_full_model.py`: looks both teams
up in `predict_vegas_with_injuries.TEAM_LOCATIONS`, `0` when either is
missing, `haversine_distance` on the away then home coordinates otherwise. -/
noncomputable def calculate_travel_distance
    (away_team home_team : String) : ℝ :=
  match PredictVegas.TEAM_LOCATIONS.lookup away_team,
        PredictVegas.TEAM_LOCATIONS.lookup home_team with
  | some away_loc, some home_loc =>
      PredictVegas.haversine_distance
        (away_loc.1 : ℝ) (away_loc.2 : ℝ) (home_loc.1 : ℝ) (home_loc.2 : ℝ)
  | _, _ => 0

/-- The `past_games` list of `get_stats_before_date`: the records of the log
whose date parses and is strictly before `before_date`. -/
def past_games (team_log : List AdvancedStats.Game) (before_date : Date) :
    List AdvancedStats.Game :=
  team_log.filter (fun g =>
    match parse_game_date g.game_date with
    | some d => d.blt before_date
    | none => false)

/-- `get_stats_before_date(team_log, before_date, last_n=10)`: average stats
over the `last_n` most recent qualifying past games (`past_games[-last_n:]`;
for `last_n = 0` the Python slice `[-0:]` is the whole list). -/
def get_stats_before_date (team_log : List AdvancedStats.Game)
    (before_date : Date) (last_n : Nat) : AdvancedStats.TeamStats :=
  let past := past_games team_log before_date
  let recent := if last_n == 0 then past else past.drop (past.length - last_n)
  AdvancedStats.calculate_team_average_stats recent last_n

/-- `compute_net_rating(stats)`: offensive-rating excess over the 112 league
average plus a scaled win-rate adjustment. -/
def compute_net_rating (stats : AdvancedStats.TeamStats) : ℚ :=
  let estimated_net := stats.avg_off_rating - 112
  let win_adj := (stats.win_pct - 0.5) * 10
  estimated_net + win_adj

/-- The `travel_category` cascade of `extract_features` (the
`if travel_distance < 500: ... else: travel_category = 3` block), factored out
so the bucket boundaries can be stated directly. -/
noncomputable def travel_category_of (travel_distance : ℝ) : Nat :=
  if travel_distance < 500 then 0
  else if travel_distance < 1500 then 1
  else if travel_distance < 2500 then 2
  else 3

/-- `extract_features(game, team_logs)`: `None` models the `ValueError`
raised for an unparseable game date; `team_logs` models the dict through its
total `.get(team, [])` view.  The 12 components are kept in source order. -/
noncomputable def extract_features (game : Matchup)
    (team_logs : String → List AdvancedStats.Game) : Option (List ℝ) :=
  match parse_game_date game.game_date with
  | none => none
  | some game_date =>
    let home_stats := get_stats_before_date (team_logs game.home_team) game_date 10
    let away_stats := get_stats_before_date (team_logs game.away_team) game_date 10
    let home_net_rating := compute_net_rating home_stats
    let away_net_rating := compute_net_rating away_stats
    let travel_distance := calculate_travel_distance game.away_team game.home_team
    let travel_category : Nat := travel_category_of travel_distance
    some [(home_net_rating : ℝ), (away_net_rating : ℝ),
          ((home_net_rating - away_net_rating : ℚ) : ℝ), 1,
          travel_distance, (travel_category : ℝ),
          (home_stats.win_pct : ℝ), (away_stats.win_pct : ℝ),
          ((home_stats.win_pct - away_stats.win_pct : ℚ) : ℝ),
          (home_stats.avg_off_rating : ℝ), (away_stats.avg_off_rating : ℝ),
          ((home_stats.avg_off_rating - away_stats.avg_off_rating : ℚ) : ℝ)]

/-- The sort key of `run_full_backtest`:
`parse_game_date(g['game_date']) or datetime.min`. -/
def date_key (g : Matchup) : Date := (parse_game_date g.game_date).getD datetimeMin

/-- `games_sorted` of `run_full_backtest`: Python's stable ascending `sorted`
by `date_key`, modelled by `List.mergeSort`. -/
def games_sorted (games : List Matchup) : List Matchup :=
  games.mergeSort (fun a b => (date_key a).ble (date_key b))

/-- `split_idx = int(len(games_sorted) * 0.75)`: `0.75` is the dyadic `3/4`,
so the float product is exact and truncation is `⌊3n/4⌋`. -/
def split_idx (games : List Matchup) : Nat := games.length * 3 / 4

/-- `train_games = games_sorted[:split_idx]`. -/
def train_games (games : List Matchup) : List Matchup :=
  (games_sorted games).take (split_idx games)

/-- `test_games = games_sorted[split_idx:]`. -/
def test_games (games : List Matchup) : List Matchup :=
  (games_sorted games).drop (split_idx games)

/-- `y_pred = [1 if p > 0.5 else 0 for p in y_pred_proba]`. -/
def y_pred_of (y_pred_proba : List ℚ) : List Nat :=
  y_pred_proba.map (fun p => if p > 0.5 then 1 else 0)

/-- `high_conf_correct`: predictions over `range(len(y_test))` that are
correct and have `abs(y_pred_proba[i] - 0.5) > 0.15`. -/
def high_conf_correct (y_pred_proba : List ℚ) (y_test : List Nat) : Nat :=
  ((List.range y_test.length).filter (fun i =>
    ((y_pred_of y_pred_proba).getD i 0 == y_test.getD i 0) &&
      decide (|y_pred_proba.getD i 0 - 0.5| > 0.15))).length

/-- `high_conf_total`: predictions over `range(len(y_test))` with
`abs(y_pred_proba[i] - 0.5) > 0.15`. -/
def high_conf_total (y_pred_proba : List ℚ) (y_test : List Nat) : Nat :=
  ((List.range y_test.length).filter (fun i =>
    decide (|y_pred_proba.getD i 0 - 0.5| > 0.15))).length

end BacktestFullModel

/-! ### `backtest_2023_24_season.py` -/

namespace Backtest2324

/-- One entry of the `results` list of `run_backtest`, restricted to the keys
`display_results` consults for the high-confidence breakdown. -/
structure PredRecord where
  correct : Bool
  prob : ℚ
deriving DecidableEq, Repr

/-- `high_conf_correct` of `display_results`: results that are correct and
have `abs(r['prob'] - 0.5) > 0.1`. -/
def high_conf_correct (results : List PredRecord) : Nat :=
  (results.filter (fun r => r.correct && decide (|r.prob - 0.5| > 0.1))).length

/-- `high_conf_total` of `display_results`: results with
`abs(r['prob'] - 0.5) > 0.1`. -/
def high_conf_total (results : List PredRecord) : Nat :=
  (results.filter (fun r => decide (|r.prob - 0.5| > 0.1))).length

end Backtest2324

/-- Modelled from the spec: the rest differential of `spec.md` §4.3, "the
difference in elapsed days since each team's immediately preceding game,
relative to the matchup date; positive favors the home team" — home rest days
minus away rest days.  Used only to compare against
`AdvancedFeatures.calculate_rest_differential`. -/
def spec_rest_differential (home_last away_last game_date : Date) : Int :=
  ((game_date.toOrdinal : Int) - (home_last.toOrdinal : Int)) -
    ((game_date.toOrdinal : Int) - (away_last.toOrdinal : Int))

end NBA

open NBA

/-! ## Theorems -/

/-- Claim C4 (corrected): `calculate_offensive_rating` returns 0 exactly when
`possessions == 0`; for every nonzero possessions value — negative ones
included — it divides, returning `pts / possessions * 100`. -/
theorem C4_offensive_rating_zero_guard (pts possessions : ℚ) :
    (possessions = 0 →
      AdvancedStats.calculate_offensive_rating pts possessions = 0) ∧
    (possessions ≠ 0 →
      AdvancedStats.calculate_offensive_rating pts possessions =
        pts / possessions * 100) := by
  constructor <;> intro h <;>
    simp [AdvancedStats.calculate_offensive_rating, h]

theorem C4_offensive_rating_zero_guard_witness :
    AdvancedStats.calculate_offensive_rating 100 0 = 0 ∧
    AdvancedStats.calculate_offensive_rating 110 4 = 110 / 4 * 100 :=
  ⟨(C4_offensive_rating_zero_guard 100 0).1 rfl,
   (C4_offensive_rating_zero_guard 110 4).2 (by norm_num)⟩

/-- Claim C4, counterexample to the claim as stated: at `possessions = -10 ≤ 0`
the calculator does not return 0 — it divides by the negative value and
returns `-1000`. -/
theorem C4_offensive_rating_counterexample :
    ((-10 : ℚ) ≤ 0) ∧
    AdvancedStats.calculate_offensive_rating 100 (-10) = -1000 ∧
    AdvancedStats.calculate_offensive_rating 100 (-10) ≠ 0 := by
  norm_num [AdvancedStats.calculate_offensive_rating]

/-- Claim C5 (code bug): at a matchup dated FEB 12 with the home team's last
game on FEB 10 (2 rest days) and the away team's on FEB 08 (4 rest days), the
code returns `+2` — signalling a home rest advantage per its own docstring
("positive = home advantage") — while the documented quantity, home rest days
minus away rest days, is `-2`.  The sign flip `return -date_diff` is inverted:
the code is positive exactly when the home team is the *less* rested side. -/
theorem C5_rest_differential_sign_flip :
    AdvancedFeatures.calculate_rest_differential
      "FEB 10, 2026" "FEB 08, 2026" "FEB 12, 2026" = 2 ∧
    spec_rest_differential ⟨2026, 2, 10⟩ ⟨2026, 2, 8⟩ ⟨2026, 2, 12⟩ = -2 ∧
    AdvancedFeatures.parse_game_date "FEB 10, 2026" = some ⟨2026, 2, 10⟩ ∧
    AdvancedFeatures.parse_game_date "FEB 08, 2026" = some ⟨2026, 2, 8⟩ ∧
    AdvancedFeatures.parse_game_date "FEB 12, 2026" = some ⟨2026, 2, 12⟩ := by
  decide

/-- Claim C10 (confirmed): `calculate_rest_differential` is total (it returns
an `Int` for every triple of strings) and returns exactly 0 whenever either
last-game input fails to parse in all three supported date formats. -/
theorem C10_rest_differential_neutral_on_parse_failure
    (home_last_game away_last_game game_date : String)
    (h : AdvancedFeatures.parse_game_date home_last_game = none ∨
         AdvancedFeatures.parse_game_date away_last_game = none) :
    AdvancedFeatures.calculate_rest_differential
      home_last_game away_last_game game_date = 0 := by
  unfold AdvancedFeatures.calculate_rest_differential
  rcases hh : AdvancedFeatures.parse_game_date home_last_game with _ | dh <;>
    rcases ha : AdvancedFeatures.parse_game_date away_last_game with _ | da <;>
      simp_all

theorem C10_rest_differential_neutral_on_parse_failure_witness :
    AdvancedFeatures.parse_game_date "HELLO WORLD" = none ∧
    AdvancedFeatures.calculate_rest_differential
      "HELLO WORLD" "FEB 08, 2026" "FEB 12, 2026" = 0 :=
  ⟨by decide,
   C10_rest_differential_neutral_on_parse_failure _ _ _ (Or.inl (by decide))⟩

/-- Claim C7, counterexample to the claim as stated: the repository's
2023-24-season backtest counts a prediction with probability `31/50 = 0.62`
(`|p − 0.5| = 0.12`) in its high-confidence total even though
`|p − 0.5| > 0.15` fails — that path uses threshold `0.1`, not 0.15. -/
theorem C7_high_confidence_threshold_counterexample :
    Backtest2324.high_conf_total [⟨true, 31/50⟩] = 1 ∧
    ¬ (|(31/50 : ℚ) - 0.5| > 0.15) := by
  have habs : |(31/50 : ℚ) - 0.5| = 3/25 := by
    rw [show (31/50 : ℚ) - 0.5 = 3/25 by norm_num,
      abs_of_nonneg (by norm_num : (0:ℚ) ≤ 3/25)]
  have h : decide ((0.1:ℚ) < |31/50 - 0.5|) = true := by
    rw [decide_eq_true_eq, habs]; norm_num
  constructor
  · simp [Backtest2324.high_conf_total, List.filter, h]
  · rw [gt_iff_lt, habs]; norm_num

/-- The counting loop over `range(len(y_test))` with default-valued indexing
equals a count over the zipped lists, when the lengths agree. -/
theorem filter_range_getD_length (q : ℚ → Nat → Bool) :
    ∀ (ps : List ℚ) (ys : List Nat), ps.length = ys.length →
    ((List.range ys.length).filter
        (fun i => q (ps.getD i 0) (ys.getD i 0))).length =
      ((ps.zip ys).filter (fun py => q py.1 py.2)).length := by
  intro ps
  induction ps with
  | nil =>
    intro ys h
    have hy : ys = [] := by cases ys with
      | nil => rfl
      | cons y ys => simp at h
    subst hy; simp
  | cons p ps ih =>
    intro ys h
    cases ys with
    | nil => simp at h
    | cons y ys =>
      have hlen : ps.length = ys.length := by simpa using h
      simp only [List.length_cons, List.range_succ_eq_map, List.filter_cons,
        List.getD_cons_zero, List.zip_cons_cons]
      rw [List.filter_map]
      simp only [Function.comp_def, List.getD_cons_succ]
      by_cases hq : q p y
      · simp only [if_pos hq, List.length_cons, List.length_map]
        rw [ih ys hlen]
      · simp only [if_neg hq, List.length_map]
        rw [ih ys hlen]

/-- Indexing the predicted-label list is the predicted label of the indexed
probability (the default 0 agrees on out-of-range indices). -/
theorem y_pred_getD (ps : List ℚ) (i : Nat) :
    (BacktestFullModel.y_pred_of ps).getD i 0 =
      (if ps.getD i 0 > 0.5 then 1 else 0) := by
  induction ps generalizing i with
  | nil => simp [BacktestFullModel.y_pred_of]; norm_num
  | cons p ps ih =>
    cases i with
    | zero => simp [BacktestFullModel.y_pred_of]
    | succ n => simpa [BacktestFullModel.y_pred_of] using ih n

/-- Claim C7 (corrected): in `backtest_full_model.py` the high-confidence
counters do select exactly the predictions with `|p − 0.5| > 0.15`, the
correct ones among them being those whose predicted label `p > 0.5` matches
the actual label; the `backtest_2023_24_season.py` display path computes the
same metric with threshold `0.1` instead. -/
theorem C7_high_confidence_characterization :
    (∀ (y_pred_proba : List ℚ) (y_test : List Nat),
      y_pred_proba.length = y_test.length →
      BacktestFullModel.high_conf_total y_pred_proba y_test =
        ((y_pred_proba.zip y_test).filter
          (fun py => decide (|py.1 - 0.5| > 0.15))).length ∧
      BacktestFullModel.high_conf_correct y_pred_proba y_test =
        ((y_pred_proba.zip y_test).filter
          (fun py => ((if py.1 > 0.5 then (1:Nat) else 0) == py.2) &&
            decide (|py.1 - 0.5| > 0.15))).length) ∧
    (∀ results : List Backtest2324.PredRecord,
      Backtest2324.high_conf_total results =
        results.countP (fun r => decide (|r.prob - 0.5| > 0.1)) ∧
      Backtest2324.high_conf_correct results =
        results.countP (fun r => r.correct && decide (|r.prob - 0.5| > 0.1))) := by
  refine ⟨fun proba ytest h => ⟨?_, ?_⟩, fun results => ⟨?_, ?_⟩⟩
  · exact filter_range_getD_length
      (fun p y => decide (|p - 0.5| > 0.15)) proba ytest h
  · have hfun : (fun i =>
        ((BacktestFullModel.y_pred_of proba).getD i 0 == ytest.getD i 0) &&
          decide (|proba.getD i 0 - 0.5| > 0.15)) =
        (fun i => (fun p y => ((if p > 0.5 then (1:Nat) else 0) == y) &&
          decide (|p - 0.5| > 0.15)) (proba.getD i 0) (ytest.getD i 0)) := by
      funext i; rw [y_pred_getD]
    unfold BacktestFullModel.high_conf_correct
    rw [hfun]
    exact filter_range_getD_length
      (fun p y => ((if p > 0.5 then (1:Nat) else 0) == y) &&
        decide (|p - 0.5| > 0.15)) proba ytest h
  · rw [List.countP_eq_length_filter]; rfl
  · rw [List.countP_eq_length_filter]; rfl

theorem C7_high_confidence_characterization_witness :
    BacktestFullModel.high_conf_total [(0.9 : ℚ)] [1] =
      (([(0.9 : ℚ)].zip [(1 : Nat)]).filter
        (fun py => decide (|py.1 - 0.5| > 0.15))).length :=
  (C7_high_confidence_characterization.1 [(0.9 : ℚ)] [(1 : Nat)] rfl).1

/-- Claim C2, counterexample to the claim as stated: for a matchup whose
home side has zero game-log entries before the matchup date (the log map is
empty everywhere), feature extraction does not fail — it returns a feature
vector.  No `InsufficientHistoryError` exists anywhere in the source. -/
theorem C2_insufficient_history_counterexample :
    BacktestFullModel.past_games
      ((fun _ => ([] : List AdvancedStats.Game)) "BOS") ⟨2024, 1, 15⟩ = [] ∧
    BacktestFullModel.parse_game_date "JAN 15, 2024" = some ⟨2024, 1, 15⟩ ∧
    (BacktestFullModel.extract_features ⟨"BOS", "NY", true, "JAN 15, 2024"⟩
      (fun _ => [])).isSome = true :=
  ⟨rfl, by decide, rfl⟩

/-- Claim C2 (corrected): extraction succeeds for every matchup with a
parseable date, whatever the logs; a side with zero qualifying prior games
silently receives the neutral default stats of
`calculate_team_average_stats` (`avg_off_rating 100`, `win_pct 0.5`, ...)
instead of raising, so the matchup stays in the feature matrix. -/
theorem C2_zero_history_neutral_defaults (M : BacktestFullModel.Matchup)
    (team_logs : String → List AdvancedStats.Game) (d : NBA.Date)
    (h : BacktestFullModel.parse_game_date M.game_date = some d) :
    (BacktestFullModel.extract_features M team_logs).isSome = true ∧
    (BacktestFullModel.past_games (team_logs M.home_team) d = [] →
      BacktestFullModel.get_stats_before_date (team_logs M.home_team) d 10 =
        ⟨0, 100, 100, 0.5, none⟩) := by
  constructor
  · simp [BacktestFullModel.extract_features, h]
  · intro hpast
    simp [BacktestFullModel.get_stats_before_date, hpast,
      AdvancedStats.calculate_team_average_stats]

theorem C2_zero_history_neutral_defaults_witness :
    BacktestFullModel.parse_game_date "JAN 15, 2024" = some ⟨2024, 1, 15⟩ ∧
    (BacktestFullModel.extract_features ⟨"MIA", "ORL", false, "JAN 15, 2024"⟩
      (fun _ => [])).isSome = true ∧
    BacktestFullModel.get_stats_before_date
      ((fun _ => ([] : List AdvancedStats.Game)) "MIA") ⟨2024, 1, 15⟩ 10 =
      ⟨0, 100, 100, 0.5, none⟩ :=
  ⟨by decide,
   (C2_zero_history_neutral_defaults ⟨"MIA", "ORL", false, "JAN 15, 2024"⟩
     (fun _ => []) ⟨2024, 1, 15⟩ (by decide)).1,
   (C2_zero_history_neutral_defaults ⟨"MIA", "ORL", false, "JAN 15, 2024"⟩
     (fun _ => []) ⟨2024, 1, 15⟩ (by decide)).2 rfl⟩

/-- Filtering to strictly-past games is idempotent. -/
theorem past_games_idem (l : List AdvancedStats.Game) (d : NBA.Date) :
    BacktestFullModel.past_games (BacktestFullModel.past_games l d) d =
      BacktestFullModel.past_games l d := by
  unfold BacktestFullModel.past_games
  rw [List.filter_filter]
  congr 1
  funext g
  cases BacktestFullModel.parse_game_date g.game_date <;> simp

/-- Claim C1 (confirmed): the feature vector extracted for a matchup depends
on the game-log map only through the records whose parsed date is strictly
before the matchup date — extraction is unchanged under any modification of
the logs (adding, removing or editing records dated on or after the matchup
date) that preserves the strictly-earlier records, and it equals extraction
over the logs restricted to the strictly-earlier records. -/
theorem C1_no_lookahead (M : BacktestFullModel.Matchup) (d : NBA.Date)
    (hd : BacktestFullModel.parse_game_date M.game_date = some d)
    (team_logs team_logs' : String → List AdvancedStats.Game)
    (hpast : ∀ t, BacktestFullModel.past_games (team_logs t) d =
      BacktestFullModel.past_games (team_logs' t) d) :
    BacktestFullModel.extract_features M team_logs =
      BacktestFullModel.extract_features M team_logs' ∧
    BacktestFullModel.extract_features M team_logs =
      BacktestFullModel.extract_features M
        (fun t => BacktestFullModel.past_games (team_logs t) d) := by
  have key : ∀ (L L' : String → List AdvancedStats.Game),
      (∀ t, BacktestFullModel.past_games (L t) d =
        BacktestFullModel.past_games (L' t) d) →
      BacktestFullModel.extract_features M L =
        BacktestFullModel.extract_features M L' := by
    intro L L' hp
    have h1 : BacktestFullModel.get_stats_before_date (L M.home_team) d 10 =
        BacktestFullModel.get_stats_before_date (L' M.home_team) d 10 := by
      unfold BacktestFullModel.get_stats_before_date
      rw [hp M.home_team]
    have h2 : BacktestFullModel.get_stats_before_date (L M.away_team) d 10 =
        BacktestFullModel.get_stats_before_date (L' M.away_team) d 10 := by
      unfold BacktestFullModel.get_stats_before_date
      rw [hp M.away_team]
    simp only [BacktestFullModel.extract_features, hd, h1, h2]
  exact ⟨key team_logs team_logs' hpast,
    key team_logs (fun t => BacktestFullModel.past_games (team_logs t) d)
      (fun t => (past_games_idem (team_logs t) d).symm)⟩

theorem C1_no_lookahead_witness :
    (∀ t, BacktestFullModel.past_games
        ((fun t => if t == "BOS" then
            [(⟨100, 95, 105, true, "JAN 1, 2024"⟩ : AdvancedStats.Game),
             ⟨120, 99, 121, true, "FEB 1, 2024"⟩]
          else []) t) ⟨2024, 1, 15⟩ =
      BacktestFullModel.past_games
        ((fun t => if t == "BOS" then
            [(⟨100, 95, 105, true, "JAN 1, 2024"⟩ : AdvancedStats.Game)]
          else []) t) ⟨2024, 1, 15⟩) ∧
    BacktestFullModel.extract_features ⟨"BOS", "NY", true, "JAN 15, 2024"⟩
      (fun t => if t == "BOS" then
          [(⟨100, 95, 105, true, "JAN 1, 2024"⟩ : AdvancedStats.Game),
           ⟨120, 99, 121, true, "FEB 1, 2024"⟩]
        else []) =
    BacktestFullModel.extract_features ⟨"BOS", "NY", true, "JAN 15, 2024"⟩
      (fun t => if t == "BOS" then
          [(⟨100, 95, 105, true, "JAN 1, 2024"⟩ : AdvancedStats.Game)]
        else []) := by
  have hp : ∀ t, BacktestFullModel.past_games
        ((fun t => if t == "BOS" then
            [(⟨100, 95, 105, true, "JAN 1, 2024"⟩ : AdvancedStats.Game),
             ⟨120, 99, 121, true, "FEB 1, 2024"⟩]
          else []) t) ⟨2024, 1, 15⟩ =
      BacktestFullModel.past_games
        ((fun t => if t == "BOS" then
            [(⟨100, 95, 105, true, "JAN 1, 2024"⟩ : AdvancedStats.Game)]
          else []) t) ⟨2024, 1, 15⟩ := by
    intro t
    cases h : (t == "BOS") <;> simp only [h] <;> rfl
  exact ⟨hp, (C1_no_lookahead ⟨"BOS", "NY", true, "JAN 15, 2024"⟩ ⟨2024, 1, 15⟩
    (by decide) _ _ hp).1⟩

/-- Chronological order on dates is transitive. -/
theorem date_ble_trans (a b c : NBA.Date) (hab : a.ble b = true)
    (hbc : b.ble c = true) : a.ble c = true := by
  simp only [NBA.Date.ble, Bool.or_eq_true, Bool.and_eq_true,
    decide_eq_true_eq, beq_iff_eq] at hab hbc ⊢
  omega

/-- Chronological order on dates is total. -/
theorem date_ble_total (a b : NBA.Date) : (a.ble b || b.ble a) = true := by
  simp only [NBA.Date.ble, Bool.or_eq_true, Bool.and_eq_true,
    decide_eq_true_eq, beq_iff_eq]
  omega

/-- Claim C3 (confirmed): the split of `run_full_backtest` is a permutation
of the input sorted ascending by parsed date, cut at `⌊len × 0.75⌋`: train is
the prefix before that index and test the suffix from it, they concatenate
back to the sorted list, a 100-matchup input yields exactly 75 train and 25
test entries, and for duplicate-free inputs no matchup lands in both. -/
theorem C3_chronological_split (games : List BacktestFullModel.Matchup) :
    (BacktestFullModel.games_sorted games).Perm games ∧
    (BacktestFullModel.games_sorted games).Pairwise
      (fun a b => (BacktestFullModel.date_key a).ble
        (BacktestFullModel.date_key b) = true) ∧
    BacktestFullModel.train_games games ++ BacktestFullModel.test_games games =
      BacktestFullModel.games_sorted games ∧
    (BacktestFullModel.train_games games).length = games.length * 3 / 4 ∧
    (games.length = 100 →
      (BacktestFullModel.train_games games).length = 75 ∧
      (BacktestFullModel.test_games games).length = 25) ∧
    (games.Nodup → ∀ m ∈ BacktestFullModel.train_games games,
      m ∉ BacktestFullModel.test_games games) := by
  have hperm : (BacktestFullModel.games_sorted games).Perm games :=
    List.mergeSort_perm games _
  have hlen : (BacktestFullModel.games_sorted games).length = games.length :=
    hperm.length_eq
  have htrain : (BacktestFullModel.train_games games).length =
      games.length * 3 / 4 := by
    unfold BacktestFullModel.train_games BacktestFullModel.split_idx
    rw [List.length_take, hlen]
    omega
  have htt : BacktestFullModel.train_games games ++
      BacktestFullModel.test_games games = BacktestFullModel.games_sorted games :=
    List.take_append_drop _ _
  refine ⟨hperm, ?_, htt, htrain, ?_, ?_⟩
  · have htr : ∀ a b c : BacktestFullModel.Matchup,
        (BacktestFullModel.date_key a).ble (BacktestFullModel.date_key b) = true →
        (BacktestFullModel.date_key b).ble (BacktestFullModel.date_key c) = true →
        (BacktestFullModel.date_key a).ble (BacktestFullModel.date_key c) = true :=
      fun a b c hab hbc => date_ble_trans _ _ _ hab hbc
    have hto : ∀ a b : BacktestFullModel.Matchup,
        ((BacktestFullModel.date_key a).ble (BacktestFullModel.date_key b) ||
          (BacktestFullModel.date_key b).ble (BacktestFullModel.date_key a)) = true :=
      fun a b => date_ble_total _ _
    exact List.sorted_mergeSort htr hto games
  · intro h100
    have htest : (BacktestFullModel.test_games games).length =
        games.length - games.length * 3 / 4 := by
      unfold BacktestFullModel.test_games BacktestFullModel.split_idx
      rw [List.length_drop, hlen]
    constructor
    · rw [htrain, h100]
    · rw [htest, h100]
  · intro hnd m hm hm'
    have hnd' : (BacktestFullModel.train_games games ++
        BacktestFullModel.test_games games).Nodup := by
      rw [htt]
      exact hperm.nodup_iff.mpr hnd
    rcases List.nodup_append.mp hnd' with ⟨-, -, hdisj⟩
    exact hdisj hm hm'

theorem C3_chronological_split_witness :
    (((List.range 100).map (fun i =>
        (⟨toString i, "X", true, "JAN 1, 2024"⟩ : BacktestFullModel.Matchup))).length
          = 100 ∧
      (BacktestFullModel.train_games ((List.range 100).map (fun i =>
        (⟨toString i, "X", true, "JAN 1, 2024"⟩ : BacktestFullModel.Matchup)))).length
          = 75 ∧
      (BacktestFullModel.test_games ((List.range 100).map (fun i =>
        (⟨toString i, "X", true, "JAN 1, 2024"⟩ : BacktestFullModel.Matchup)))).length
          = 25) ∧
    (([⟨"A", "B", true, "JAN 1, 2024"⟩, ⟨"C", "D", true, "JAN 2, 2024"⟩,
       ⟨"E", "F", false, "JAN 3, 2024"⟩, ⟨"G", "H", true, "JAN 4, 2024"⟩] :
        List BacktestFullModel.Matchup).Nodup ∧
      (⟨"A", "B", true, "JAN 1, 2024"⟩ : BacktestFullModel.Matchup) ∈
        BacktestFullModel.train_games
          [⟨"A", "B", true, "JAN 1, 2024"⟩, ⟨"C", "D", true, "JAN 2, 2024"⟩,
           ⟨"E", "F", false, "JAN 3, 2024"⟩, ⟨"G", "H", true, "JAN 4, 2024"⟩] ∧
      (⟨"A", "B", true, "JAN 1, 2024"⟩ : BacktestFullModel.Matchup) ∉
        BacktestFullModel.test_games
          [⟨"A", "B", true, "JAN 1, 2024"⟩, ⟨"C", "D", true, "JAN 2, 2024"⟩,
           ⟨"E", "F", false, "JAN 3, 2024"⟩, ⟨"G", "H", true, "JAN 4, 2024"⟩]) := by
  have hsorted : BacktestFullModel.games_sorted
      [⟨"A", "B", true, "JAN 1, 2024"⟩, ⟨"C", "D", true, "JAN 2, 2024"⟩,
       ⟨"E", "F", false, "JAN 3, 2024"⟩, ⟨"G", "H", true, "JAN 4, 2024"⟩] =
      [⟨"A", "B", true, "JAN 1, 2024"⟩, ⟨"C", "D", true, "JAN 2, 2024"⟩,
       ⟨"E", "F", false, "JAN 3, 2024"⟩, ⟨"G", "H", true, "JAN 4, 2024"⟩] :=
    List.mergeSort_of_sorted (by decide)
  have hmem : (⟨"A", "B", true, "JAN 1, 2024"⟩ : BacktestFullModel.Matchup) ∈
      BacktestFullModel.train_games
        [⟨"A", "B", true, "JAN 1, 2024"⟩, ⟨"C", "D", true, "JAN 2, 2024"⟩,
         ⟨"E", "F", false, "JAN 3, 2024"⟩, ⟨"G", "H", true, "JAN 4, 2024"⟩] := by
    unfold BacktestFullModel.train_games
    rw [hsorted]
    decide
  refine ⟨⟨by simp, ?_, ?_⟩, by decide, hmem, ?_⟩
  · exact ((C3_chronological_split _).2.2.2.2.1 (by simp)).1
  · exact ((C3_chronological_split _).2.2.2.2.1 (by simp)).2
  · exact (C3_chronological_split _).2.2.2.2.2 (by decide) _ hmem

/-- Claim C6 (confirmed): both the `travel_category` cascade of
`extract_features` and `calculate_travel_fatigue_factor` are the same
inclusive-low/exclusive-high step function with thresholds 500, 1500, 2500,
and the boundary inputs land in the claimed buckets. -/
theorem C6_travel_fatigue_buckets :
    (∀ dist : ℝ,
      (dist < 500 → BacktestFullModel.travel_category_of dist = 0 ∧
        AdvancedFeatures.calculate_travel_fatigue_factor dist = -0.5) ∧
      (500 ≤ dist → dist < 1500 → BacktestFullModel.travel_category_of dist = 1 ∧
        AdvancedFeatures.calculate_travel_fatigue_factor dist = -2.0) ∧
      (1500 ≤ dist → dist < 2500 → BacktestFullModel.travel_category_of dist = 2 ∧
        AdvancedFeatures.calculate_travel_fatigue_factor dist = -5.0) ∧
      (2500 ≤ dist → BacktestFullModel.travel_category_of dist = 3 ∧
        AdvancedFeatures.calculate_travel_fatigue_factor dist = -7.0)) ∧
    BacktestFullModel.travel_category_of 499.9 = 0 ∧
    BacktestFullModel.travel_category_of 500 = 1 ∧
    BacktestFullModel.travel_category_of 1499.9 = 1 ∧
    BacktestFullModel.travel_category_of 1500 = 2 ∧
    BacktestFullModel.travel_category_of 2499.9 = 2 ∧
    BacktestFullModel.travel_category_of 2500 = 3 := by
  have main : ∀ dist : ℝ,
      (dist < 500 → BacktestFullModel.travel_category_of dist = 0 ∧
        AdvancedFeatures.calculate_travel_fatigue_factor dist = -0.5) ∧
      (500 ≤ dist → dist < 1500 → BacktestFullModel.travel_category_of dist = 1 ∧
        AdvancedFeatures.calculate_travel_fatigue_factor dist = -2.0) ∧
      (1500 ≤ dist → dist < 2500 → BacktestFullModel.travel_category_of dist = 2 ∧
        AdvancedFeatures.calculate_travel_fatigue_factor dist = -5.0) ∧
      (2500 ≤ dist → BacktestFullModel.travel_category_of dist = 3 ∧
        AdvancedFeatures.calculate_travel_fatigue_factor dist = -7.0) := by
    intro dist
    unfold BacktestFullModel.travel_category_of
      AdvancedFeatures.calculate_travel_fatigue_factor
    refine ⟨fun h1 => ?_, fun h1 h2 => ?_, fun h1 h2 => ?_, fun h1 => ?_⟩
    · rw [if_pos h1, if_pos h1]; exact ⟨rfl, rfl⟩
    · rw [if_neg (not_lt.mpr h1), if_pos h2, if_neg (not_lt.mpr h1), if_pos h2]
      exact ⟨rfl, rfl⟩
    · rw [if_neg (not_lt.mpr (by linarith)), if_neg (not_lt.mpr h1), if_pos h2,
        if_neg (not_lt.mpr (by linarith)), if_neg (not_lt.mpr h1), if_pos h2]
      exact ⟨rfl, rfl⟩
    · rw [if_neg (not_lt.mpr (by linarith)), if_neg (not_lt.mpr (by linarith)),
        if_neg (not_lt.mpr h1), if_neg (not_lt.mpr (by linarith)),
        if_neg (not_lt.mpr (by linarith)), if_neg (not_lt.mpr h1)]
      exact ⟨rfl, rfl⟩
  refine ⟨main, ?_, ?_, ?_, ?_, ?_, ?_⟩
  · exact ((main 499.9).1 (by norm_num)).1
  · exact (((main 500).2.1 (by norm_num)) (by norm_num)).1
  · exact (((main 1499.9).2.1 (by norm_num)) (by norm_num)).1
  · exact (((main 1500).2.2.1 (by norm_num)) (by norm_num)).1
  · exact (((main 2499.9).2.2.1 (by norm_num)) (by norm_num)).1
  · exact ((main 2500).2.2.2 (by norm_num)).1

theorem C6_travel_fatigue_buckets_witness :
    ((0:ℝ) < 500 ∧ BacktestFullModel.travel_category_of 0 = 0 ∧
      AdvancedFeatures.calculate_travel_fatigue_factor 0 = -0.5) ∧
    ((500:ℝ) ≤ 800 ∧ (800:ℝ) < 1500 ∧
      BacktestFullModel.travel_category_of 800 = 1 ∧
      AdvancedFeatures.calculate_travel_fatigue_factor 800 = -2.0) ∧
    ((2500:ℝ) ≤ 3000 ∧ BacktestFullModel.travel_category_of 3000 = 3 ∧
      AdvancedFeatures.calculate_travel_fatigue_factor 3000 = -7.0) := by
  refine ⟨⟨by norm_num, ?_⟩, ⟨by norm_num, by norm_num, ?_⟩, ⟨by norm_num, ?_⟩⟩
  · exact (C6_travel_fatigue_buckets.1 0).1 (by norm_num)
  · exact ⟨(((C6_travel_fatigue_buckets.1 800).2.1 (by norm_num)) (by norm_num)).1,
      (((C6_travel_fatigue_buckets.1 800).2.1 (by norm_num)) (by norm_num)).2⟩
  · exact ⟨((C6_travel_fatigue_buckets.1 3000).2.2.2 (by norm_num)).1,
      ((C6_travel_fatigue_buckets.1 3000).2.2.2 (by norm_num)).2⟩

/-- `asin √a` and `atan2 √a √(1−a)` compute the same angle, for every real
`a` (the two spellings of the final Haversine step). -/
theorem arcsin_sqrt_eq_atan2 (a : ℝ) :
    Real.arcsin (Real.sqrt a) =
      NBA.atan2 (Real.sqrt a) (Real.sqrt (1 - a)) := by
  rcases le_or_lt a 0 with h | h
  · have hsa : Real.sqrt a = 0 := Real.sqrt_eq_zero'.mpr h
    have hx : 0 < Real.sqrt (1 - a) := Real.sqrt_pos.mpr (by linarith)
    rw [hsa]
    simp [NBA.atan2, hx, Real.arcsin_zero, Real.arctan_zero]
  · rcases lt_or_le a 1 with h1 | h1
    · have hsa1 : Real.sqrt a < 1 := by
        have := Real.sqrt_lt_sqrt (le_of_lt h) h1
        simpa using this
      have hx : 0 < Real.sqrt (1 - a) := Real.sqrt_pos.mpr (by linarith)
      rw [Real.arcsin_eq_arctan ⟨by linarith [Real.sqrt_nonneg a], hsa1⟩,
        Real.sq_sqrt (le_of_lt h)]
      simp [NBA.atan2, hx]
    · have hx : Real.sqrt (1 - a) = 0 := Real.sqrt_eq_zero'.mpr (by linarith)
      have hsa : 1 ≤ Real.sqrt a := by
        have := Real.sqrt_le_sqrt h1
        simpa using this
      have hpos : 0 < Real.sqrt a := lt_of_lt_of_le zero_lt_one hsa
      rw [Real.arcsin_of_one_le hsa, hx]
      simp [NBA.atan2, hpos]

/-- The haversine intermediate `a` is symmetric in its two coordinate
pairs. -/
theorem hav_a_symm (lat1 lon1 lat2 lon2 : ℝ) :
    Real.sin (radians (lat2 - lat1) / 2) ^ 2 +
      Real.cos (radians lat1) * Real.cos (radians lat2) *
        Real.sin (radians (lon2 - lon1) / 2) ^ 2 =
    Real.sin (radians (lat1 - lat2) / 2) ^ 2 +
      Real.cos (radians lat2) * Real.cos (radians lat1) *
        Real.sin (radians (lon1 - lon2) / 2) ^ 2 := by
  have hs : ∀ x y : ℝ,
      Real.sin (radians (x - y) / 2) ^ 2 = Real.sin (radians (y - x) / 2) ^ 2 := by
    intro x y
    have hneg : radians (x - y) / 2 = -(radians (y - x) / 2) := by
      unfold radians; ring
    rw [hneg, Real.sin_neg]; ring
  rw [hs lat2 lat1, hs lon2 lon1]; ring

/-- Claim C8, counterexample to the claim as stated: the two great-circle
implementations do not share the radius constant 3958.8 —
`calculate_travel_distance` hard-codes 3959 miles. -/
theorem C8_radius_mismatch_counterexample :
    AdvancedFeatures.R_miles ≠ 3958.8 ∧
    AdvancedFeatures.R_miles = 3959 ∧ PredictVegas.R_miles = 3958.8 := by
  norm_num [AdvancedFeatures.R_miles, PredictVegas.R_miles]

/-- Claim C8 (corrected): the two implementations compute the same central
angle (despite spelling the final step as `asin` versus `atan2`), but scale
it by different Earth radii — 3958.8 miles in `haversine_distance`, 3959 in
`calculate_travel_distance` — so their distances agree only up to the fixed
factor 3959/3958.8. -/
theorem C8_distance_proportionality (lat1 lon1 lat2 lon2 : ℝ) :
    AdvancedFeatures.R_miles = 3959 ∧ PredictVegas.R_miles = 3958.8 ∧
    3959 * PredictVegas.haversine_distance lat1 lon1 lat2 lon2 =
      3958.8 * AdvancedFeatures.calculate_travel_distance_formula
        lat1 lon1 lat2 lon2 := by
  refine ⟨rfl, rfl, ?_⟩
  simp only [PredictVegas.haversine_distance,
    AdvancedFeatures.calculate_travel_distance_formula,
    PredictVegas.R_miles, AdvancedFeatures.R_miles]
  rw [arcsin_sqrt_eq_atan2]
  ring

/-- Claim C9 (confirmed): both Haversine implementations are symmetric in
their two coordinate pairs and return 0 on identical coordinates. -/
theorem C9_haversine_symmetric_zero_diagonal :
    (∀ lat1 lon1 lat2 lon2 : ℝ,
      PredictVegas.haversine_distance lat1 lon1 lat2 lon2 =
        PredictVegas.haversine_distance lat2 lon2 lat1 lon1 ∧
      AdvancedFeatures.calculate_travel_distance_formula lat1 lon1 lat2 lon2 =
        AdvancedFeatures.calculate_travel_distance_formula lat2 lon2 lat1 lon1) ∧
    (∀ lat lon : ℝ,
      PredictVegas.haversine_distance lat lon lat lon = 0 ∧
      AdvancedFeatures.calculate_travel_distance_formula lat lon lat lon = 0) := by
  have h0 : ∀ x : ℝ, radians (x - x) / 2 = 0 := by
    intro x; unfold radians; ring
  constructor
  · intro lat1 lon1 lat2 lon2
    constructor
    · simp only [PredictVegas.haversine_distance]
      rw [hav_a_symm]
    · simp only [AdvancedFeatures.calculate_travel_distance_formula]
      rw [hav_a_symm]
  · intro lat lon
    constructor
    · simp only [PredictVegas.haversine_distance]
      rw [h0, h0, Real.sin_zero]
      norm_num [Real.sqrt_zero, Real.arcsin_zero]
    · simp only [AdvancedFeatures.calculate_travel_distance_formula]
      rw [h0, h0, Real.sin_zero]
      norm_num [Real.sqrt_zero, Real.sqrt_one, NBA.atan2, Real.arctan_zero]
